import Mathlib

/-!
# Verification of the CollectionViewer plugin lifecycle manager

Shallow embedding of `lifecycle_manager.py` (CollectionViewer plugin).
The Python module manages install/uninstall of a plugin for a user:
it copies plugin files into a shared storage directory and inserts /
deletes rows of the `plugin` and `module` database tables, inside a
transaction on a database session object.

Modelling conventions:
* filesystem paths are lists of path components (`PathParts`);
* the database session is a pair of table states (`committed`, `current`)
  together with a rollback counter; `execute` acts on `current`,
  `commit` publishes `current`, `rollback` restores `committed`;
* Python exceptions are modelled by fault-injection values: each call
  site that can raise receives an `Option String` which, when `some m`,
  stands for an exception whose `str(e)` is `m`;
* the filesystem component of the world records the files *written* by
  the manager (targets of `shutil.copy2`); directory creation
  (`mkdir(parents=True, exist_ok=True)`) is not tracked since the code
  never inspects directories.
-/

namespace CollectionViewer

/-- A filesystem path, as its list of components (`pathlib.Path.parts`). -/
abbrev PathParts := List String

/-- `str(path)` for a relative path: components joined with `/`. -/
def joinPath (p : PathParts) : String := String.intercalate "/" p

/-- `path.name`: the final component (empty for the empty path). -/
def pathName (p : PathParts) : String := p.getLastD ""

/-! ## Static plugin metadata (`self.plugin_data`, `self.module_data`) -/

/-- The fields of the `plugin_data` dict that the lifecycle manager reads.
`permissions_json` holds `json.dumps` of the `permissions` list. -/
structure PluginData where
  name : String
  description : String
  version : String
  ptype : String
  icon : String
  category : String
  official : Bool
  author : String
  compatibility : String
  scope : String
  bundle_method : String
  bundle_location : String
  is_local : Bool
  long_description : String
  plugin_slug : String
  source_type : String
  source_url : String
  update_check_url : String
  last_update_check : Option String
  update_available : Bool
  latest_version : Option String
  installation_type : String
  permissions_json : String
  deriving DecidableEq, Repr

/-- `self.plugin_data` from `CollectionViewerLifecycleManager.__init__`. -/
def plugin_data : PluginData where
  name := "CollectionViewer"
  description := "View and browse your document collections"
  version := "1.0.0"
  ptype := "frontend"
  icon := "folder_open"
  category := "Data Management"
  official := false
  author := "BrainDrive Team"
  compatibility := "1.0.0"
  scope := "CollectionViewer"
  bundle_method := "webpack"
  bundle_location := "dist/remoteEntry.js"
  is_local := false
  long_description := "A simple, functional React component plugin that fetches and displays collections from your BrainDrive instance. Built with modern React hooks and TypeScript."
  plugin_slug := "CollectionViewer"
  source_type := "local"
  source_url := ""
  update_check_url := ""
  last_update_check := none
  update_available := false
  latest_version := none
  installation_type := "remote"
  permissions_json := "[\"api.access\"]"

/-- One entry of `self.module_data`.  The `*_json` fields hold the
`json.dumps` serialization of the corresponding dict/list values, which is
what `_create_database_records` stores in the `module` table. -/
structure ModuleData where
  name : String
  display_name : String
  description : String
  icon : String
  category : String
  priority : Nat
  props_json : String
  config_fields_json : String
  messages_json : String
  required_services_json : String
  dependencies_json : String
  layout_json : String
  tags_json : String
  deriving DecidableEq, Repr

/-- `self.module_data` from `__init__`: a single module definition. -/
def module_data : List ModuleData :=
  [{ name := "CollectionViewer"
     display_name := "Collection Viewer"
     description := "View all your document collections with details"
     icon := "folder_open"
     category := "Data Management"
     priority := 1
     props_json := "\x7b\x7d"
     config_fields_json := "\x7b\x7d"
     messages_json := "\x7b\x7d"
     required_services_json := "\x7b\x7d"
     dependencies_json := "[]"
     layout_json := "\x7b\"minWidth\": 4, \"minHeight\": 4, \"defaultWidth\": 8, \"defaultHeight\": 6\x7d"
     tags_json := "[\"collections\", \"viewer\", \"documents\", \"data\"]" }]

/-! ## Shared storage path (`__init__`) -/

/-- Python truthiness of the optional `plugins_base_dir: str` argument
(`if plugins_base_dir:`): `None` and the empty string are falsy. -/
def pluginsBaseDirTruthy : Option String → Bool
  | none => false
  | some b => !(b == "")

/-- The `shared_path` computed in `__init__`:
`Path(plugins_base_dir) / "shared" / plugin_slug / f"v{version}"` when
`plugins_base_dir` is truthy, else `Path(__file__).parent` (the directory
containing `lifecycle_manager.py`, `fileDir` here).  The base directory is
kept as a single path component. -/
def mkSharedPath (fileDir : PathParts) (pluginsBaseDir : Option String) : PathParts :=
  if pluginsBaseDirTruthy pluginsBaseDir then
    [pluginsBaseDir.getD ""] ++ ["shared", plugin_data.plugin_slug, "v" ++ plugin_data.version]
  else
    fileDir

/-! ## File copy (`_copy_plugin_files_impl`) -/

/-- The `exclude_patterns` set from `_copy_plugin_files_impl`. -/
def exclude_patterns : List String :=
  ["node_modules", "package-lock.json", ".git", ".gitignore", "__pycache__", "*.pyc", ".DS_Store"]

/-- Python `'*' in pattern`, computed on the character list. -/
def strContainsChar (s : String) (c : Char) : Bool := s.data.contains c

/-- Python `s.endswith(suffix)`, computed on the character lists. -/
def strEndsWith (s suffix : String) : Bool := suffix.data.isSuffixOf s.data

/-- Python `pattern.replace('*', '')`: with a one-character search string
and empty replacement this is exactly removal of every `*` character. -/
def strRemoveStar (s : String) : String := ⟨s.data.filter (fun c => !(c == '*'))⟩

/-- `should_copy(path)`: no path component is in `exclude_patterns`, and the
file name does not end with the suffix of any `*`-pattern in the set
(the only such pattern is `*.pyc`). -/
def should_copy (path : PathParts) : Bool :=
  path.all (fun part => !(exclude_patterns.contains part)) &&
  exclude_patterns.all (fun pattern =>
    !(strContainsChar pattern '*' && strEndsWith (pathName path) (strRemoveStar pattern)))

/-- The relative paths of the files that `_copy_plugin_files_impl` copies,
in order: the `rglob` loop over `sourceFiles` (the files under the plugin
source directory, as paths relative to it), which skips the manager's own
top-level `lifecycle_manager.py` and every file rejected by `should_copy`;
then the explicit re-copy of `lifecycle_manager.py` when it exists. -/
def copiedRelPaths (sourceFiles : List PathParts) : List PathParts :=
  (sourceFiles.filter (fun rel =>
      !(rel == ["lifecycle_manager.py"]) && should_copy rel)) ++
  (if sourceFiles.contains ["lifecycle_manager.py"] then [["lifecycle_manager.py"]] else [])

/-- Result dict of `_copy_plugin_files_impl`. -/
structure CopyResult where
  success : Bool
  copiedFiles : List String
  error : Option String
  deriving DecidableEq, Repr

/-- `_copy_plugin_files_impl`: on an exception reaching the outer
`try` (`fault = some m`) it returns `{'success': False, 'error': str(e)}`;
otherwise it copies the non-excluded files and returns their relative
path strings (`copied_files`). -/
def copy_plugin_files_impl (sourceFiles : List PathParts) (fault : Option String) :
    CopyResult :=
  match fault with
  | some m => ⟨false, [], some m⟩
  | none => ⟨true, (copiedRelPaths sourceFiles).map joinPath, none⟩

/-! ## Validation (`_validate_installation_impl`) and health
(`_get_plugin_health_impl`) -/

/-- Abstraction of the contents of `package.json` in the plugin directory:
either `json.load` fails with message `msg`, or it parses and the two
required fields `name` / `version` are present or not. -/
inductive PackageJson where
  | invalid (msg : String)
  | valid (hasName : Bool) (hasVersion : Bool)
  deriving DecidableEq, Repr

/-- Abstraction of the plugin directory inspected by validation and
health-check: presence of the two required files, the size reported by
`stat()` for `dist/remoteEntry.js`, and the parse status of `package.json`. -/
structure PluginDir where
  hasPackageJson : Bool
  hasRemoteEntry : Bool
  remoteEntrySize : Nat
  packageJson : PackageJson
  deriving DecidableEq, Repr

/-- `required_files` from `_validate_installation_impl`. -/
def required_files : List String := ["package.json", "dist/remoteEntry.js"]

/-- The `missing_files` list built by the loop over `required_files`. -/
def missingFiles (d : PluginDir) : List String :=
  (if !d.hasPackageJson then ["package.json"] else []) ++
  (if !d.hasRemoteEntry then ["dist/remoteEntry.js"] else [])

/-- Result dict of `_validate_installation_impl`. -/
structure ValidationResult where
  valid : Bool
  error : Option String
  deriving DecidableEq, Repr

/-- `_validate_installation_impl`; `fault` models an exception reaching the
outer `try` (e.g. from `stat()`). -/
def validate_installation_impl (d : PluginDir) (fault : Option String) :
    ValidationResult :=
  match fault with
  | some m => ⟨false, some m⟩
  | none =>
    let missing := missingFiles d
    if !missing.isEmpty then
      ⟨false, some ("Missing required files: " ++ String.intercalate ", " missing)⟩
    else
      match d.packageJson with
      | .invalid msg => ⟨false, some ("Invalid package.json: " ++ msg)⟩
      | .valid hasName hasVersion =>
        if !hasName then
          ⟨false, some "package.json missing required field: name"⟩
        else if !hasVersion then
          ⟨false, some "package.json missing required field: version"⟩
        else if d.remoteEntrySize == 0 then
          ⟨false, some "Bundle file is empty"⟩
        else
          ⟨true, none⟩

/-- The `health_info` dict of `_get_plugin_health_impl`, plus the `error`
key that appears in `details` on the exception path. -/
structure HealthDetails where
  bundleExists : Bool
  bundleSize : Nat
  packageJsonValid : Bool
  error : Option String
  deriving DecidableEq, Repr

/-- Result dict of `_get_plugin_health_impl`. -/
structure HealthResult where
  healthy : Bool
  details : HealthDetails
  deriving DecidableEq, Repr

/-- `_get_plugin_health_impl`. -/
def get_plugin_health_impl (d : PluginDir) (fault : Option String) : HealthResult :=
  match fault with
  | some m => ⟨false, ⟨false, 0, false, some m⟩⟩
  | none =>
    let bundleExists := d.hasRemoteEntry
    let bundleSize := if d.hasRemoteEntry then d.remoteEntrySize else 0
    let packageJsonValid :=
      d.hasPackageJson &&
        (match d.packageJson with
         | .invalid _ => false
         | .valid _ _ => true)
    ⟨bundleExists && decide (bundleSize > 0) && packageJsonValid,
     ⟨bundleExists, bundleSize, packageJsonValid, none⟩⟩

/-! ## Database model -/

/-- A row of the `plugin` table, with the columns of the INSERT statement in
`_create_database_records`. -/
structure PluginRow where
  id : String
  name : String
  description : String
  version : String
  ptype : String
  enabled : Bool
  icon : String
  category : String
  status : String
  official : Bool
  author : String
  lastUpdated : String
  compatibility : String
  downloads : Nat
  scope : String
  bundleMethod : String
  bundleLocation : String
  isLocal : Bool
  longDescription : String
  configFields : String
  messages : Option String
  dependencies : Option String
  createdAt : String
  updatedAt : String
  userId : String
  pluginSlug : String
  sourceType : String
  sourceUrl : String
  updateCheckUrl : String
  lastUpdateCheck : Option String
  updateAvailable : Bool
  latestVersion : Option String
  installationType : String
  permissions : String
  deriving DecidableEq, Repr

/-- A row of the `module` table, with the columns of the INSERT statement in
`_create_database_records`. -/
structure ModuleRow where
  id : String
  pluginId : String
  name : String
  displayName : String
  description : String
  icon : String
  category : String
  enabled : Bool
  priority : Nat
  props : String
  configFields : String
  messages : String
  requiredServices : String
  dependencies : String
  layout : String
  tags : String
  createdAt : String
  updatedAt : String
  userId : String
  deriving DecidableEq, Repr

/-- The two tables touched by the manager. -/
structure DBState where
  plugins : List PluginRow
  modules : List ModuleRow
  deriving DecidableEq, Repr

/-- The database session: `current` is the view inside the open
transaction (what `execute` reads and writes), `committed` is the
durable state; `rollbackCount` counts `db.rollback()` calls. -/
structure Session where
  committed : DBState
  current : DBState
  rollbackCount : Nat
  deriving DecidableEq, Repr

/-- `db.rollback()`: discard uncommitted changes. -/
def Session.rollback (s : Session) : Session :=
  ⟨s.committed, s.committed, s.rollbackCount + 1⟩

/-- `db.commit()`: publish the current transaction. -/
def Session.commit (s : Session) : Session :=
  ⟨s.current, s.current, s.rollbackCount⟩

/-- Per-call environment: the wall-clock string used for timestamp columns
(`datetime.datetime.now().strftime(...)`), and one fault-injection slot per
call site that can raise an exception (value = `str(e)`). -/
structure Env where
  now : String
  checkQuery : Option String
  mkdirFault : Option String
  copyFault : Option String
  insertPlugin : Option String
  insertModule : Option String
  commitCreate : Option String
  deleteModules : Option String
  deletePlugin : Option String
  commitDelete : Option String
  deriving DecidableEq, Repr

/-- An environment in which nothing raises. -/
def noFault : Env := ⟨"t0", none, none, none, none, none, none, none, none, none⟩

/-- The WHERE clause of the SELECT in `_check_existing_plugin`:
`user_id = :user_id AND plugin_slug = :plugin_slug`. -/
def pluginMatches (u : String) (r : PluginRow) : Bool :=
  r.userId == u && r.pluginSlug == plugin_data.plugin_slug

/-- Result dict of `_check_existing_plugin` (the `plugin_info` sub-dict is
not consumed by any caller and is omitted). -/
structure CheckResult where
  pluginExists : Bool
  pluginId : Option String
  error : Option String
  deriving DecidableEq, Repr

/-- `_check_existing_plugin`: SELECT + `fetchone` on the open transaction;
an exception (`fault = some m`) is caught and mapped to
`{'exists': False, 'error': str(e)}`. -/
def check_existing_plugin (u : String) (fault : Option String) (s : Session) :
    CheckResult :=
  match fault with
  | some m => ⟨false, none, some m⟩
  | none =>
    match s.current.plugins.find? (pluginMatches u) with
    | some row => ⟨true, some row.id, none⟩
    | none => ⟨false, none, none⟩

/-- The `plugin` row inserted by `_create_database_records` for `userId`,
with timestamp columns set to `now`. -/
def mkPluginRow (userId now : String) : PluginRow where
  id := userId ++ "_" ++ plugin_data.plugin_slug
  name := plugin_data.name
  description := plugin_data.description
  version := plugin_data.version
  ptype := plugin_data.ptype
  enabled := true
  icon := plugin_data.icon
  category := plugin_data.category
  status := "activated"
  official := plugin_data.official
  author := plugin_data.author
  lastUpdated := now
  compatibility := plugin_data.compatibility
  downloads := 0
  scope := plugin_data.scope
  bundleMethod := plugin_data.bundle_method
  bundleLocation := plugin_data.bundle_location
  isLocal := plugin_data.is_local
  longDescription := plugin_data.long_description
  configFields := "\x7b\x7d"
  messages := none
  dependencies := none
  createdAt := now
  updatedAt := now
  userId := userId
  pluginSlug := plugin_data.plugin_slug
  sourceType := plugin_data.source_type
  sourceUrl := plugin_data.source_url
  updateCheckUrl := plugin_data.update_check_url
  lastUpdateCheck := plugin_data.last_update_check
  updateAvailable := plugin_data.update_available
  latestVersion := plugin_data.latest_version
  installationType := plugin_data.installation_type
  permissions := plugin_data.permissions_json

/-- The `module` row inserted by `_create_database_records` for `userId`
and module definition `md`. -/
def mkModuleRow (userId now : String) (md : ModuleData) : ModuleRow where
  id := userId ++ "_" ++ plugin_data.plugin_slug ++ "_" ++ md.name
  pluginId := userId ++ "_" ++ plugin_data.plugin_slug
  name := md.name
  displayName := md.display_name
  description := md.description
  icon := md.icon
  category := md.category
  enabled := true
  priority := md.priority
  props := md.props_json
  configFields := md.config_fields_json
  messages := md.messages_json
  requiredServices := md.required_services_json
  dependencies := md.dependencies_json
  layout := md.layout_json
  tags := md.tags_json
  createdAt := now
  updatedAt := now
  userId := userId

/-- Result dict of `_create_database_records`. -/
structure DbCreateResult where
  success : Bool
  pluginId : Option String
  modulesCreated : List String
  error : Option String
  deriving DecidableEq, Repr

/-- `_create_database_records`: INSERT the plugin row, INSERT one module row
per `module_data` entry, then `commit`; any exception triggers
`db.rollback()` and a failure result carrying `str(e)`. -/
def create_database_records (u : String) (e : Env) (s : Session) :
    DbCreateResult × Session :=
  let pluginId := u ++ "_" ++ plugin_data.plugin_slug
  match e.insertPlugin with
  | some m => (⟨false, none, [], some m⟩, s.rollback)
  | none =>
    let s1 : Session :=
      ⟨s.committed, ⟨s.current.plugins ++ [mkPluginRow u e.now], s.current.modules⟩,
       s.rollbackCount⟩
    match e.insertModule with
    | some m => (⟨false, none, [], some m⟩, s1.rollback)
    | none =>
      let s2 : Session :=
        ⟨s1.committed,
         ⟨s1.current.plugins, s1.current.modules ++ module_data.map (mkModuleRow u e.now)⟩,
         s1.rollbackCount⟩
      let modulesCreated :=
        module_data.map (fun md => u ++ "_" ++ plugin_data.plugin_slug ++ "_" ++ md.name)
      match e.commitCreate with
      | some m => (⟨false, none, [], some m⟩, s2.rollback)
      | none => (⟨true, some pluginId, modulesCreated, none⟩, s2.commit)

/-- The WHERE clause of the module DELETE in `_delete_database_records`:
`plugin_id = :plugin_id AND user_id = :user_id`. -/
def moduleDeleteMatches (pid u : String) (m : ModuleRow) : Bool :=
  m.pluginId == pid && m.userId == u

/-- The WHERE clause of the plugin DELETE in `_delete_database_records`:
`id = :plugin_id AND user_id = :user_id`. -/
def pluginDeleteMatches (pid u : String) (r : PluginRow) : Bool :=
  r.id == pid && r.userId == u

/-- Result dict of `_delete_database_records`. -/
structure DbDeleteResult where
  success : Bool
  deletedModules : Option Nat
  error : Option String
  deriving DecidableEq, Repr

/-- `_delete_database_records`: DELETE the matching module rows, DELETE the
matching plugin row; if the plugin DELETE's `rowcount` is zero, roll back
(undoing the module deletions) and fail with `'Plugin not found'`;
otherwise `commit`.  Any exception triggers `db.rollback()` and a failure
result carrying `str(e)`. -/
def delete_database_records (u pid : String) (e : Env) (s : Session) :
    DbDeleteResult × Session :=
  match e.deleteModules with
  | some m => (⟨false, none, some m⟩, s.rollback)
  | none =>
    let deletedModules := s.current.modules.countP (moduleDeleteMatches pid u)
    let s1 : Session :=
      ⟨s.committed,
       ⟨s.current.plugins, s.current.modules.filter (fun r => !(moduleDeleteMatches pid u r))⟩,
       s.rollbackCount⟩
    match e.deletePlugin with
    | some m => (⟨false, none, some m⟩, s1.rollback)
    | none =>
      let pluginRowcount := s1.current.plugins.countP (pluginDeleteMatches pid u)
      let s2 : Session :=
        ⟨s1.committed,
         ⟨s1.current.plugins.filter (fun r => !(pluginDeleteMatches pid u r)), s1.current.modules⟩,
         s1.rollbackCount⟩
      if pluginRowcount == 0 then
        (⟨false, none, some "Plugin not found"⟩, s2.rollback)
      else
        match e.commitDelete with
        | some m => (⟨false, none, some m⟩, s2.rollback)
        | none => (⟨true, some deletedModules, none⟩, s2.commit)

/-! ## Orchestration (`install_plugin` / `delete_plugin` and the base
class entry points from the minimal `BaseLifecycleManager`) -/

/-- Result dict of the public operations.  `error`, `pluginId`,
`modulesCreated` and `deletedModules` cover the keys produced by the
install / uninstall results. -/
structure OpResult where
  success : Bool
  error : Option String
  pluginId : Option String
  modulesCreated : List String
  deletedModules : Option Nat
  deriving DecidableEq, Repr

/-- The mutable state visible across calls: the database session, the set
of files written by the manager, and the base class's `active_users` set. -/
structure World where
  sess : Session
  fs : List PathParts
  activeUsers : List String
  deriving DecidableEq, Repr

/-- Per-manager configuration: the directory containing
`lifecycle_manager.py` (`Path(__file__).parent`), the plugin source files
(paths relative to that directory), and the `shared_path` chosen by
`__init__`. -/
structure Cfg where
  fileDir : PathParts
  sourceFiles : List PathParts
  sharedPath : PathParts
  deriving DecidableEq, Repr

/-- `CollectionViewerLifecycleManager(plugins_base_dir)`: builds the
configuration with `shared_path` from `mkSharedPath`. -/
def mkCfg (fileDir : PathParts) (sourceFiles : List PathParts)
    (pluginsBaseDir : Option String) : Cfg :=
  ⟨fileDir, sourceFiles, mkSharedPath fileDir pluginsBaseDir⟩

/-- `_perform_user_installation`: delegate to `_create_database_records`;
on success return the success dict with `plugin_id` and `modules_created`. -/
def perform_user_installation (u : String) (e : Env) (s : Session) :
    OpResult × Session :=
  let r := create_database_records u e s
  if r.1.success then
    (⟨true, none, r.1.pluginId, r.1.modulesCreated, none⟩, r.2)
  else
    (⟨false, r.1.error, none, [], none⟩, r.2)

/-- `BaseLifecycleManager.install_for_user`: refuse when the user is
already in `active_users`; otherwise run the installation and on success
add the user to `active_users`. -/
def install_for_user (u : String) (e : Env) (w : World) : OpResult × World :=
  if w.activeUsers.contains u then
    (⟨false, some "Plugin already installed for user", none, [], none⟩, w)
  else
    let r := perform_user_installation u e w.sess
    if r.1.success then
      (r.1, ⟨r.2, w.fs, u :: w.activeUsers⟩)
    else
      (r.1, ⟨r.2, w.fs, w.activeUsers⟩)

/-- `CollectionViewerLifecycleManager.install_plugin`: check for an
existing row; if present fail with `'Plugin already installed'`; otherwise
`mkdir` the shared path, copy the plugin files there and run
`install_for_user`. -/
def installPluginM (cfg : Cfg) (u : String) (e : Env) (w : World) :
    OpResult × World :=
  let check := check_existing_plugin u e.checkQuery w.sess
  if check.pluginExists then
    (⟨false, some "Plugin already installed", none, [], none⟩, w)
  else
    match e.mkdirFault with
    | some m => (⟨false, some m, none, [], none⟩, w)
    | none =>
      let copyRes := copy_plugin_files_impl cfg.sourceFiles e.copyFault
      if copyRes.success then
        install_for_user u e
          ⟨w.sess,
           w.fs ++ (copiedRelPaths cfg.sourceFiles).map (fun p => cfg.sharedPath ++ p),
           w.activeUsers⟩
      else
        (⟨false, copyRes.error, none, [], none⟩, w)

/-- `_perform_user_uninstallation`: check that the plugin row exists, then
delete the database records for its id. -/
def perform_user_uninstallation (u : String) (e : Env) (s : Session) :
    OpResult × Session :=
  let check := check_existing_plugin u e.checkQuery s
  if check.pluginExists then
    let pid := check.pluginId.getD ""
    let r := delete_database_records u pid e s
    if r.1.success then
      (⟨true, none, some pid, [], r.1.deletedModules⟩, r.2)
    else
      (⟨false, r.1.error, none, [], none⟩, r.2)
  else
    (⟨false, some "Plugin not found for user", none, [], none⟩, s)

/-- `BaseLifecycleManager.uninstall_for_user`: refuse when the user is not
in `active_users`; otherwise run the uninstallation and on success discard
the user from `active_users`. -/
def uninstall_for_user (u : String) (e : Env) (w : World) : OpResult × World :=
  if w.activeUsers.contains u then
    let r := perform_user_uninstallation u e w.sess
    if r.1.success then
      (r.1, ⟨r.2, w.fs, w.activeUsers.filter (fun v => !(v == u))⟩)
    else
      (r.1, ⟨r.2, w.fs, w.activeUsers⟩)
  else
    (⟨false, some "Plugin not installed for user", none, [], none⟩, w)

/-- `CollectionViewerLifecycleManager.delete_plugin`: delegates to
`uninstall_for_user`. -/
def deletePluginM (u : String) (e : Env) (w : World) : OpResult × World :=
  uninstall_for_user u e w

/-- The standalone `install_plugin(user_id, db, plugins_base_dir)`:
constructs a fresh manager (empty `active_users`) and runs its
`install_plugin`. -/
def standalone_install_plugin (fileDir : PathParts) (sourceFiles : List PathParts)
    (pluginsBaseDir : Option String) (u : String) (e : Env)
    (s : Session) (fs : List PathParts) : OpResult × World :=
  installPluginM (mkCfg fileDir sourceFiles pluginsBaseDir) u e ⟨s, fs, []⟩

/-- The standalone `delete_plugin(user_id, db, plugins_base_dir)`:
constructs a fresh manager (empty `active_users`) and runs its
`delete_plugin`. -/
def standalone_delete_plugin (u : String) (e : Env)
    (s : Session) (fs : List PathParts) : OpResult × World :=
  deletePluginM u e ⟨s, fs, []⟩

/-! ## Reachability -/

/-- One public call on a persistent manager. -/
inductive Op where
  | install (u : String) (e : Env)
  | uninstall (u : String) (e : Env)

/-- State transition of one call (result discarded). -/
def applyOp (cfg : Cfg) (w : World) : Op → World
  | .install u e => (installPluginM cfg u e w).2
  | .uninstall u e => (deletePluginM u e w).2

/-- Run a sequence of calls. -/
def runOps (cfg : Cfg) (w : World) : List Op → World
  | [] => w
  | op :: ops => runOps cfg (applyOp cfg w op) ops

/-- The initial state: empty tables, no transaction in flight, no files
written, no active users. -/
def initWorld : World := ⟨⟨⟨[], []⟩, ⟨[], []⟩, 0⟩, [], []⟩

/-- States reachable by any sequence of `install_plugin` / `delete_plugin`
calls (including failing ones) from the initial state. -/
def Reachable (cfg : Cfg) (w : World) : Prop :=
  ∃ ops : List Op, w = runOps cfg initWorld ops

/-- "The plugin's files have been copied to the shared path": every
copyable source file is present at its target location. -/
def allFilesCopied (cfg : Cfg) (fs : List PathParts) : Prop :=
  ∀ p ∈ cfg.sourceFiles, should_copy p = true → (cfg.sharedPath ++ p) ∈ fs

/-- A `plugin` row for the pair `(u, plugin_slug)` exists. -/
def pluginRowExistsFor (d : DBState) (u : String) : Prop :=
  ∃ r ∈ d.plugins, r.userId = u ∧ r.pluginSlug = plugin_data.plugin_slug

instance (cfg : Cfg) (fs : List PathParts) : Decidable (allFilesCopied cfg fs) := by
  unfold allFilesCopied; infer_instance

instance (d : DBState) (u : String) : Decidable (pluginRowExistsFor d u) := by
  unfold pluginRowExistsFor; infer_instance

/-- The module rows belonging to user `u`'s CollectionViewer plugin:
`user_id = u` and `plugin_id = u + "_CollectionViewer"`. -/
def moduleMatches (u : String) (x : ModuleRow) : Bool :=
  x.userId == u && x.pluginId == (u ++ "_" ++ plugin_data.plugin_slug)

/-! ## Invariants maintained by the lifecycle operations -/

/-- Every plugin row has the canonical id `user_id + "_CollectionViewer"`
and slug `CollectionViewer` (all rows are created by
`_create_database_records`). -/
def canonicalPlugins (d : DBState) : Prop :=
  ∀ r ∈ d.plugins, r.id = r.userId ++ "_" ++ plugin_data.plugin_slug ∧
    r.pluginSlug = plugin_data.plugin_slug

/-- Every module row references the canonical plugin id of its own user. -/
def canonicalModules (d : DBState) : Prop :=
  ∀ x ∈ d.modules, x.pluginId = x.userId ++ "_" ++ plugin_data.plugin_slug

/-- A user has a plugin row exactly when they have a module row (rows of
the two tables are created and deleted in the same transaction). -/
def usersLinked (d : DBState) : Prop :=
  ∀ u : String,
    (∃ r ∈ d.plugins, r.userId = u ∧ r.pluginSlug = plugin_data.plugin_slug) ↔
    (∃ x ∈ d.modules, x.userId = u)

/-- The inductive database invariant. -/
def DBInv (d : DBState) : Prop := canonicalPlugins d ∧ canonicalModules d ∧ usersLinked d

/-- The inductive invariant on worlds: no transaction in flight between
calls, the database invariant, and files copied once any row exists. -/
def StrongInv (cfg : Cfg) (w : World) : Prop :=
  w.sess.current = w.sess.committed ∧
  DBInv w.sess.committed ∧
  (w.sess.committed.plugins ≠ [] → allFilesCopied cfg w.fs)

/-! ## Test fixtures (concrete instantiations used by witnesses) -/

/-- A small concrete plugin source tree. -/
def srcEx : List PathParts :=
  [["package.json"], ["dist", "remoteEntry.js"], ["lifecycle_manager.py"],
   ["node_modules", "x.js"], [".git", "config"], ["src", "index.tsx"]]

/-- A concrete manager configuration with a truthy base directory. -/
def cfgEx : Cfg := mkCfg ["plugindir"] srcEx (some "plugins")

/-- The world after a successful install of user `alice` on `cfgEx`. -/
def wInstalledEx : World := (installPluginM cfgEx "alice" noFault initWorld).2

/-! ## Auxiliary lemmas -/

lemma string_append_cancel_right {a b s : String} (h : a ++ s = b ++ s) : a = b := by
  apply String.ext
  have hd := congrArg String.data h
  simp only [String.data_append] at hd
  exact List.append_cancel_right hd

lemma star_loop_eval (s : String) :
    (exclude_patterns.all (fun pattern =>
      !(strContainsChar pattern '*' && strEndsWith s (strRemoveStar pattern)))) =
    !(strEndsWith s ".pyc") := by
  have h1 : strContainsChar "node_modules" '*' = false := by decide
  have h2 : strContainsChar "package-lock.json" '*' = false := by decide
  have h3 : strContainsChar ".git" '*' = false := by decide
  have h4 : strContainsChar ".gitignore" '*' = false := by decide
  have h5 : strContainsChar "__pycache__" '*' = false := by decide
  have h6 : strContainsChar "*.pyc" '*' = true := by decide
  have h7 : strContainsChar ".DS_Store" '*' = false := by decide
  have h8 : strRemoveStar "*.pyc" = ".pyc" := by decide
  simp [exclude_patterns, h1, h2, h3, h4, h5, h6, h7, h8]

lemma should_copy_iff (p : PathParts) :
    should_copy p = true ↔
      ((∀ part ∈ p, part ∉ exclude_patterns) ∧ strEndsWith (pathName p) ".pyc" = false) := by
  unfold should_copy
  rw [Bool.and_eq_true, List.all_eq_true, star_loop_eval]
  simp

lemma should_copy_lm : should_copy ["lifecycle_manager.py"] = true := by decide

lemma mem_copiedRelPaths {src : List PathParts} {p : PathParts} :
    p ∈ copiedRelPaths src ↔ (p ∈ src ∧ should_copy p = true) := by
  unfold copiedRelPaths
  rw [List.mem_append, List.mem_filter]
  constructor
  · rintro (⟨hmem, hp⟩ | hp)
    · simp only [Bool.and_eq_true] at hp
      exact ⟨hmem, hp.2⟩
    · by_cases hlm : src.contains ["lifecycle_manager.py"]
      · rw [if_pos hlm] at hp
        simp only [List.mem_singleton] at hp
        subst hp
        exact ⟨by simpa using hlm, should_copy_lm⟩
      · rw [if_neg hlm] at hp
        simp at hp
  · rintro ⟨hmem, hsc⟩
    by_cases hp : p = ["lifecycle_manager.py"]
    · subst hp
      right
      rw [if_pos (by simpa using hmem)]
      simp
    · left
      refine ⟨hmem, ?_⟩
      simp [hp, hsc]

/-! ## Claims -/

/-- **C1.** For every user and database state in which a plugin row with
`user_id` equal to that user and `plugin_slug` `'CollectionViewer'` already
exists, and in which the duplicate-check query executes without raising
(`e.checkQuery = none`; a raising check is the subject of C9),
`install_plugin` returns `success = False` with error
`'Plugin already installed'` and leaves the entire world — filesystem,
session, active users — unchanged: no file copy, no inserted rows. -/
theorem c1_install_guard (cfg : Cfg) (u : String) (e : Env) (w : World)
    (hq : e.checkQuery = none)
    (hex : ∃ r ∈ w.sess.current.plugins, pluginMatches u r = true) :
    installPluginM cfg u e w =
      (⟨false, some "Plugin already installed", none, [], none⟩, w) := by
  have hsome : (w.sess.current.plugins.find? (pluginMatches u)).isSome :=
    List.find?_isSome.mpr hex
  rcases hfind : w.sess.current.plugins.find? (pluginMatches u) with _ | r
  · rw [hfind] at hsome; simp at hsome
  · simp [installPluginM, check_existing_plugin, hq, hfind]

/-- Witness for C1: a second install by `alice` after a successful one
fails with `'Plugin already installed'` and changes nothing. -/
theorem c1_witness :
    installPluginM cfgEx "alice" noFault wInstalledEx =
      (⟨false, some "Plugin already installed", none, [], none⟩, wInstalledEx) :=
  c1_install_guard cfgEx "alice" noFault wInstalledEx rfl (by decide)

/-- **C2.** First part: for every user with no plugin row (for any fault
schedule, raising or not), `delete_plugin` returns `success = False` and
the database session — both tables, committed and current — is unchanged.
Second part: inside `_delete_database_records`, when no plugin row matches,
the module deletions already executed are rolled back rather than
committed: the resulting session is the committed state with the rollback
counter incremented, and the result is the failure `'Plugin not found'`. -/
theorem c2_uninstall_no_mutation :
    (∀ (u : String) (e : Env) (w : World),
      (∀ r ∈ w.sess.current.plugins, ¬(pluginMatches u r = true)) →
      (deletePluginM u e w).1.success = false ∧ (deletePluginM u e w).2.sess = w.sess) ∧
    (∀ (u pid : String) (e : Env) (s : Session),
      e.deleteModules = none → e.deletePlugin = none →
      s.current.plugins.countP (pluginDeleteMatches pid u) = 0 →
      delete_database_records u pid e s =
        (⟨false, none, some "Plugin not found"⟩,
         ⟨s.committed, s.committed, s.rollbackCount + 1⟩)) := by
  constructor
  · intro u e w hno
    have hfind : w.sess.current.plugins.find? (pluginMatches u) = none :=
      List.find?_eq_none.mpr hno
    by_cases hact : u ∈ w.activeUsers
    · rcases hq : e.checkQuery with _ | m
      · simp [deletePluginM, uninstall_for_user, perform_user_uninstallation,
              check_existing_plugin, hq, hfind, hact]
      · simp [deletePluginM, uninstall_for_user, perform_user_uninstallation,
              check_existing_plugin, hq, hact]
    · simp [deletePluginM, uninstall_for_user, hact]
  · intro u pid e s h1 h2 h3
    simp [delete_database_records, h1, h2, h3, Session.rollback]

/-- Witness for C2: deleting for `bob` (never installed) in a state where
`alice` is installed fails and leaves the session unchanged; and
`_delete_database_records` on an id with no matching plugin row rolls the
module deletions back. -/
theorem c2_witness :
    ((deletePluginM "bob" noFault wInstalledEx).1.success = false ∧
      (deletePluginM "bob" noFault wInstalledEx).2.sess = wInstalledEx.sess) ∧
    delete_database_records "bob" "bob_CollectionViewer" noFault wInstalledEx.sess =
      (⟨false, none, some "Plugin not found"⟩,
       ⟨wInstalledEx.sess.committed, wInstalledEx.sess.committed,
        wInstalledEx.sess.rollbackCount + 1⟩) :=
  ⟨c2_uninstall_no_mutation.1 "bob" noFault wInstalledEx (by decide),
   c2_uninstall_no_mutation.2 "bob" "bob_CollectionViewer" noFault wInstalledEx.sess
     rfl rfl (by decide)⟩

/-- **C5 counterexample.** The claim says a file is copied unless it has a
path component in the exclusion set.  `foo.pyc` has no path component in
`exclude_patterns` (the set contains the pattern string `*.pyc`, not the
name `foo.pyc`), yet `_copy_plugin_files_impl` does not copy it: the glob
pattern excludes by suffix, not by component equality. -/
theorem c5_counterexample :
    (∀ part ∈ (["foo.pyc"] : PathParts), part ∉ exclude_patterns) ∧
    (copy_plugin_files_impl [["foo.pyc"]] none).success = true ∧
    (copy_plugin_files_impl [["foo.pyc"]] none).copiedFiles = [] := by
  decide

/-- **C5 (amended).** For every source tree, `_copy_plugin_files_impl`
copies exactly the files having no path component in the exclusion set
*and* whose name does not end in `.pyc` (the suffix of the glob pattern
`*.pyc`), preserving relative paths; in particular nothing under
`node_modules` or `.git` is copied, and `lifecycle_manager.py` itself is
copied (it appears in the returned `copied_files` list). -/
theorem c5_copy_exclusions (src : List PathParts) :
    (∀ p, p ∈ copiedRelPaths src ↔
      (p ∈ src ∧ (∀ part ∈ p, part ∉ exclude_patterns) ∧
        strEndsWith (pathName p) ".pyc" = false)) ∧
    (∀ p ∈ src, (∃ part ∈ p, part ∈ exclude_patterns) → p ∉ copiedRelPaths src) ∧
    (["lifecycle_manager.py"] ∈ src →
      "lifecycle_manager.py" ∈ (copy_plugin_files_impl src none).copiedFiles) := by
  refine ⟨?_, ?_, ?_⟩
  · intro p
    rw [mem_copiedRelPaths, should_copy_iff]
  · intro p hmem ⟨part, hpart, hexcl⟩ hcontra
    rw [mem_copiedRelPaths, should_copy_iff] at hcontra
    exact hcontra.2.1 part hpart hexcl
  · intro hlm
    have : (["lifecycle_manager.py"] : PathParts) ∈ copiedRelPaths src :=
      mem_copiedRelPaths.mpr ⟨hlm, should_copy_lm⟩
    simpa [copy_plugin_files_impl, joinPath] using
      List.mem_map_of_mem joinPath this

/-- Witness for C5 (amended) at the concrete tree `srcEx`: `src/index.tsx`
is copied, `node_modules/x.js` is not, and `lifecycle_manager.py` appears
in `copied_files`. -/
theorem c5_witness :
    (["src", "index.tsx"] : PathParts) ∈ copiedRelPaths srcEx ∧
    (["node_modules", "x.js"] : PathParts) ∉ copiedRelPaths srcEx ∧
    "lifecycle_manager.py" ∈ (copy_plugin_files_impl srcEx none).copiedFiles :=
  ⟨((c5_copy_exclusions srcEx).1 ["src", "index.tsx"]).mpr (by decide),
   (c5_copy_exclusions srcEx).2.1 ["node_modules", "x.js"] (by decide) (by decide),
   (c5_copy_exclusions srcEx).2.2 (by decide)⟩

/-- **C6 counterexample.** The claim says validation returns the distinct
error `'Bundle file is empty'` whenever `dist/remoteEntry.js` is present
with size zero.  In a directory where `package.json` is missing and the
bundle is present with size zero, validation fails earlier with the
missing-files message instead. -/
theorem c6_counterexample :
    validate_installation_impl ⟨false, true, 0, .valid true true⟩ none =
      ⟨false, some "Missing required files: package.json"⟩ ∧
    some "Missing required files: package.json" ≠ some "Bundle file is empty" := by
  decide

/-- **C6 (amended).** For every plugin directory,
`_validate_installation_impl` returns `valid = False` with an error
message naming `dist/remoteEntry.js` among the missing files when that
file is absent; and it returns `valid = False` with the distinct message
`'Bundle file is empty'` when that file is present with size zero —
provided the earlier checks pass, i.e. `package.json` is present, parses,
and contains `name` and `version`. -/
theorem c6_validate (d : PluginDir) :
    (d.hasRemoteEntry = false →
      (validate_installation_impl d none).valid = false ∧
      (validate_installation_impl d none).error =
        some ("Missing required files: " ++ String.intercalate ", " (missingFiles d)) ∧
      "dist/remoteEntry.js" ∈ missingFiles d) ∧
    (d.hasRemoteEntry = true → d.hasPackageJson = true →
      d.packageJson = .valid true true → d.remoteEntrySize = 0 →
      validate_installation_impl d none = ⟨false, some "Bundle file is empty"⟩) := by
  constructor
  · intro h
    cases hpj : d.hasPackageJson <;>
      simp [validate_installation_impl, missingFiles, h, hpj]
  · intro h1 h2 h3 h4
    simp [validate_installation_impl, missingFiles, h1, h2, h3, h4]

/-- Witness for C6 (amended): a directory with the bundle missing, and a
directory with an empty bundle and a well-formed `package.json`. -/
theorem c6_witness :
    ((validate_installation_impl ⟨true, false, 7, .valid true true⟩ none).valid = false ∧
      (validate_installation_impl ⟨true, false, 7, .valid true true⟩ none).error =
        some ("Missing required files: " ++
          String.intercalate ", " (missingFiles ⟨true, false, 7, .valid true true⟩)) ∧
      "dist/remoteEntry.js" ∈ missingFiles ⟨true, false, 7, .valid true true⟩) ∧
    validate_installation_impl ⟨true, true, 0, .valid true true⟩ none =
      ⟨false, some "Bundle file is empty"⟩ :=
  ⟨(c6_validate ⟨true, false, 7, .valid true true⟩).1 rfl,
   (c6_validate ⟨true, true, 0, .valid true true⟩).2 rfl rfl rfl rfl⟩

/-- Success-state characterization of `install_plugin`: a successful call
implies no fault fired after the existence check, the user was not active,
and the resulting world is the input world with the copied files appended
to the filesystem, the two inserts committed, and the user made active. -/
lemma install_success_state (cfg : Cfg) (u : String) (e : Env) (w : World)
    (hs : (installPluginM cfg u e w).1.success = true) :
    (installPluginM cfg u e w).2 =
      ⟨⟨⟨w.sess.current.plugins ++ [mkPluginRow u e.now],
          w.sess.current.modules ++ module_data.map (mkModuleRow u e.now)⟩,
        ⟨w.sess.current.plugins ++ [mkPluginRow u e.now],
          w.sess.current.modules ++ module_data.map (mkModuleRow u e.now)⟩,
        w.sess.rollbackCount⟩,
       w.fs ++ (copiedRelPaths cfg.sourceFiles).map (fun p => cfg.sharedPath ++ p),
       u :: w.activeUsers⟩ ∧
    e.insertPlugin = none ∧ e.insertModule = none ∧ e.commitCreate = none ∧
    u ∉ w.activeUsers ∧
    (check_existing_plugin u e.checkQuery w.sess).pluginExists = false := by
  by_cases hck : (check_existing_plugin u e.checkQuery w.sess).pluginExists
  · exfalso; simp [installPluginM, hck] at hs
  · rcases hmk : e.mkdirFault with _ | m
    · rcases hcp : e.copyFault with _ | m
      · by_cases hact : u ∈ w.activeUsers
        · exfalso
          simp [installPluginM, hck, hmk, hcp, copy_plugin_files_impl,
                install_for_user, hact] at hs
        · rcases hip : e.insertPlugin with _ | m
          · rcases him : e.insertModule with _ | m
            · rcases hcc : e.commitCreate with _ | m
              · simp [installPluginM, hck, hmk, hcp, copy_plugin_files_impl,
                      install_for_user, hact, perform_user_installation,
                      create_database_records, hip, him, hcc, Session.commit]
              · exfalso
                simp [installPluginM, hck, hmk, hcp, copy_plugin_files_impl,
                      install_for_user, hact, perform_user_installation,
                      create_database_records, hip, him, hcc] at hs
            · exfalso
              simp [installPluginM, hck, hmk, hcp, copy_plugin_files_impl,
                    install_for_user, hact, perform_user_installation,
                    create_database_records, hip, him] at hs
          · exfalso
            simp [installPluginM, hck, hmk, hcp, copy_plugin_files_impl,
                  install_for_user, hact, perform_user_installation,
                  create_database_records, hip] at hs
      · exfalso
        simp [installPluginM, hck, hmk, hcp, copy_plugin_files_impl] at hs
    · exfalso; simp [installPluginM, hck, hmk] at hs

/-- Success-state characterization of `delete_plugin`: a successful call
implies the check found a row `r`, no fault fired, the user was active,
and the resulting world has the matching rows of both tables deleted and
committed and the user discarded from `active_users`. -/
lemma delete_success_state (u : String) (e : Env) (w : World)
    (hs : (deletePluginM u e w).1.success = true) :
    ∃ r, w.sess.current.plugins.find? (pluginMatches u) = some r ∧
      e.checkQuery = none ∧ e.deleteModules = none ∧ e.deletePlugin = none ∧
      e.commitDelete = none ∧ u ∈ w.activeUsers ∧
      (deletePluginM u e w).2 =
        ⟨⟨⟨w.sess.current.plugins.filter (fun x => !(pluginDeleteMatches r.id u x)),
            w.sess.current.modules.filter (fun x => !(moduleDeleteMatches r.id u x))⟩,
          ⟨w.sess.current.plugins.filter (fun x => !(pluginDeleteMatches r.id u x)),
            w.sess.current.modules.filter (fun x => !(moduleDeleteMatches r.id u x))⟩,
          w.sess.rollbackCount⟩,
         w.fs, w.activeUsers.filter (fun v => !(v == u))⟩ := by
  by_cases hact : u ∈ w.activeUsers
  · rcases hq : e.checkQuery with _ | m
    · rcases hfind : w.sess.current.plugins.find? (pluginMatches u) with _ | r
      · exfalso
        simp [deletePluginM, uninstall_for_user, hact, perform_user_uninstallation,
              check_existing_plugin, hq, hfind] at hs
      · refine ⟨r, rfl, rfl, ?_⟩
        rcases hdm : e.deleteModules with _ | m
        · rcases hdp : e.deletePlugin with _ | m
          · by_cases hrc : (w.sess.current.plugins.countP (pluginDeleteMatches r.id u)) == 0
            · exfalso
              simp [deletePluginM, uninstall_for_user, hact, perform_user_uninstallation,
                    check_existing_plugin, hq, hfind, delete_database_records,
                    hdm, hdp, hrc] at hs
            · rcases hcd : e.commitDelete with _ | m
              · refine ⟨rfl, rfl, rfl, hact, ?_⟩
                simp [deletePluginM, uninstall_for_user, hact, perform_user_uninstallation,
                      check_existing_plugin, hq, hfind, delete_database_records,
                      hdm, hdp, hrc, hcd, Session.commit]
              · exfalso
                simp [deletePluginM, uninstall_for_user, hact, perform_user_uninstallation,
                      check_existing_plugin, hq, hfind, delete_database_records,
                      hdm, hdp, hrc, hcd] at hs
          · exfalso
            simp [deletePluginM, uninstall_for_user, hact, perform_user_uninstallation,
                  check_existing_plugin, hq, hfind, delete_database_records,
                  hdm, hdp] at hs
        · exfalso
          simp [deletePluginM, uninstall_for_user, hact, perform_user_uninstallation,
                check_existing_plugin, hq, hfind, delete_database_records, hdm] at hs
    · exfalso
      simp [deletePluginM, uninstall_for_user, hact, perform_user_uninstallation,
            check_existing_plugin, hq] at hs
  · exfalso
    simp [deletePluginM, uninstall_for_user, hact] at hs

/-- **C7 counterexample.** The claim says every operation, for every
exception raised inside it, returns a failure result whose error field is
the exception's string representation.  But an exception inside the
existence check is swallowed by `_check_existing_plugin`'s own boundary
(mapping it to `exists = False`), so `delete_plugin` with a raising check
returns the unrelated error `'Plugin not found for user'`, not `str(e)`. -/
theorem c7_counterexample :
    (deletePluginM "alice"
        ⟨"t0", some "boom", none, none, none, none, none, none, none, none⟩
        ⟨⟨⟨[], []⟩, ⟨[], []⟩, 0⟩, [], ["alice"]⟩).1 =
      ⟨false, some "Plugin not found for user", none, [], none⟩ ∧
    ("Plugin not found for user" : String) ≠ "boom" := by
  decide

/-- **C7 (amended).** Every exception is caught at the boundary of the
operation whose `try` block directly contains it and converted to a
failure result whose error field is the exception's string representation
(for the health check, inside `details`); `_create_database_records` and
`_delete_database_records` invoke `db.rollback()` before returning when a
database exception occurs (the resulting session is the committed state
with the rollback counter incremented).  An operation that observes an
*inner* operation's caught failure may report a different error, as in the
counterexample. -/
theorem c7_boundary_errors :
    (∀ (src : List PathParts) (m : String),
      copy_plugin_files_impl src (some m) = ⟨false, [], some m⟩) ∧
    (∀ (d : PluginDir) (m : String),
      validate_installation_impl d (some m) = ⟨false, some m⟩) ∧
    (∀ (d : PluginDir) (m : String),
      get_plugin_health_impl d (some m) = ⟨false, ⟨false, 0, false, some m⟩⟩) ∧
    (∀ (u : String) (e : Env) (s : Session) (m : String),
      (e.insertPlugin = some m ∨
       (e.insertPlugin = none ∧ e.insertModule = some m) ∨
       (e.insertPlugin = none ∧ e.insertModule = none ∧ e.commitCreate = some m)) →
      create_database_records u e s =
        (⟨false, none, [], some m⟩, ⟨s.committed, s.committed, s.rollbackCount + 1⟩)) ∧
    (∀ (u pid : String) (e : Env) (s : Session) (m : String),
      (e.deleteModules = some m ∨
       (e.deleteModules = none ∧ e.deletePlugin = some m) ∨
       (e.deleteModules = none ∧ e.deletePlugin = none ∧
        s.current.plugins.countP (pluginDeleteMatches pid u) ≠ 0 ∧
        e.commitDelete = some m)) →
      delete_database_records u pid e s =
        (⟨false, none, some m⟩, ⟨s.committed, s.committed, s.rollbackCount + 1⟩)) ∧
    (∀ (cfg : Cfg) (u : String) (e : Env) (w : World) (m : String),
      (check_existing_plugin u e.checkQuery w.sess).pluginExists = false →
      e.mkdirFault = some m →
      installPluginM cfg u e w = (⟨false, some m, none, [], none⟩, w)) ∧
    (∀ (cfg : Cfg) (u : String) (e : Env) (w : World) (m : String),
      (check_existing_plugin u e.checkQuery w.sess).pluginExists = false →
      e.mkdirFault = none → e.copyFault = some m →
      installPluginM cfg u e w = (⟨false, some m, none, [], none⟩, w)) := by
  refine ⟨?_, ?_, ?_, ?_, ?_, ?_, ?_⟩
  · intro src m; rfl
  · intro d m; rfl
  · intro d m; rfl
  · rintro u e s m (h | ⟨h1, h2⟩ | ⟨h1, h2, h3⟩) <;>
      simp [create_database_records, Session.rollback, *]
  · rintro u pid e s m (h | ⟨h1, h2⟩ | ⟨h1, h2, h3, h4⟩) <;>
      simp [delete_database_records, Session.rollback, *]
  · intro cfg u e w m hck hmk
    simp [installPluginM, hck, hmk]
  · intro cfg u e w m hck hmk hcp
    simp [installPluginM, hck, hmk, hcp, copy_plugin_files_impl]

/-- Witness for C7 (amended): concrete faults at the copy boundary, the
plugin INSERT, the module DELETE, the `mkdir`, and the copy call inside
install, each yielding a failure carrying the message (and a rollback for
the database ones). -/
theorem c7_witness :
    copy_plugin_files_impl srcEx (some "boom") = ⟨false, [], some "boom"⟩ ∧
    create_database_records "alice"
        ⟨"t0", none, none, none, some "db down", none, none, none, none, none⟩
        ⟨⟨[], []⟩, ⟨[], []⟩, 0⟩ =
      (⟨false, none, [], some "db down"⟩, ⟨⟨[], []⟩, ⟨[], []⟩, 1⟩) ∧
    delete_database_records "alice" "alice_CollectionViewer"
        ⟨"t0", none, none, none, none, none, none, some "db down", none, none⟩
        ⟨⟨[], []⟩, ⟨[], []⟩, 0⟩ =
      (⟨false, none, some "db down"⟩, ⟨⟨[], []⟩, ⟨[], []⟩, 1⟩) ∧
    installPluginM cfgEx "alice"
        ⟨"t0", none, some "disk full", none, none, none, none, none, none, none⟩
        initWorld =
      (⟨false, some "disk full", none, [], none⟩, initWorld) :=
  ⟨c7_boundary_errors.1 srcEx "boom",
   c7_boundary_errors.2.2.2.1 "alice"
     ⟨"t0", none, none, none, some "db down", none, none, none, none, none⟩
     ⟨⟨[], []⟩, ⟨[], []⟩, 0⟩ "db down" (Or.inl rfl),
   c7_boundary_errors.2.2.2.2.1 "alice" "alice_CollectionViewer"
     ⟨"t0", none, none, none, none, none, none, some "db down", none, none⟩
     ⟨⟨[], []⟩, ⟨[], []⟩, 0⟩ "db down" (Or.inl rfl),
   c7_boundary_errors.2.2.2.2.2.1 cfgEx "alice"
     ⟨"t0", none, some "disk full", none, none, none, none, none, none, none⟩
     initWorld "disk full" (by decide) rfl⟩

/-- **C8 counterexample.** The claim quantifies over every non-`None`
`plugins_base_dir`, but the code tests Python truthiness, not `is not
None`: for the empty string the shared path falls back to the plugin's own
source directory instead of `<base>/shared/CollectionViewer/v1.0.0`. -/
theorem c8_counterexample :
    mkSharedPath ["plugindir"] (some "") = ["plugindir"] ∧
    (["plugindir"] : PathParts) ≠ ["", "shared", "CollectionViewer", "v1.0.0"] := by
  decide

/-- **C8 (amended).** For every non-`None`, *non-empty* (truthy)
`plugins_base_dir`, the shared storage path is
`<plugins_base_dir>/shared/CollectionViewer/v1.0.0`, and a successful
`install_plugin` writes the copied files exactly under that directory,
preserving relative paths. -/
theorem c8_shared_path (fileDir : PathParts) (src : List PathParts) (b u : String)
    (e : Env) (w : World) (hb : b ≠ "")
    (hs : (installPluginM (mkCfg fileDir src (some b)) u e w).1.success = true) :
    (mkCfg fileDir src (some b)).sharedPath =
      [b, "shared", "CollectionViewer", "v1.0.0"] ∧
    (installPluginM (mkCfg fileDir src (some b)) u e w).2.fs =
      w.fs ++ (copiedRelPaths src).map
        (fun p => [b, "shared", "CollectionViewer", "v1.0.0"] ++ p) := by
  have hbb : (b == "") = false := by simpa using hb
  have hp : (mkCfg fileDir src (some b)).sharedPath =
      [b, "shared", "CollectionViewer", "v1.0.0"] := by
    simp [mkCfg, mkSharedPath, pluginsBaseDirTruthy, hbb, plugin_data]
  refine ⟨hp, ?_⟩
  have h2 := (install_success_state (mkCfg fileDir src (some b)) u e w hs).1
  rw [h2, hp]
  simp [mkCfg]

/-- Witness for C8 (amended): a successful install with base `"plugins"`
lands the files under `plugins/shared/CollectionViewer/v1.0.0`. -/
theorem c8_witness :
    (mkCfg ["plugindir"] srcEx (some "plugins")).sharedPath =
      ["plugins", "shared", "CollectionViewer", "v1.0.0"] ∧
    (installPluginM (mkCfg ["plugindir"] srcEx (some "plugins")) "alice" noFault
        initWorld).2.fs =
      initWorld.fs ++ (copiedRelPaths srcEx).map
        (fun p => ["plugins", "shared", "CollectionViewer", "v1.0.0"] ++ p) :=
  c8_shared_path ["plugindir"] srcEx "plugins" "alice" noFault initWorld
    (by decide) (by decide)

/-- **C9.** If the database query inside `_check_existing_plugin` raises,
the method returns `exists = False` with an `error` field, and
`install_plugin` treats the failed duplicate check as "not installed":
even when a plugin row for the user already exists, it proceeds to copy
the files and insert the rows (here succeeding and appending a duplicate
plugin row, since the INSERT statement itself carries no uniqueness
check), instead of returning the already-installed failure.  The
already-installed guard holds only when the check query succeeds. -/
theorem c9_check_fault_bypasses_guard (cfg : Cfg) (u m : String) (e : Env) (w : World)
    (hq : e.checkQuery = some m) (hmk : e.mkdirFault = none)
    (hcp : e.copyFault = none) (hip : e.insertPlugin = none)
    (him : e.insertModule = none) (hcc : e.commitCreate = none)
    (hact : u ∉ w.activeUsers)
    (hex : ∃ r ∈ w.sess.current.plugins, pluginMatches u r = true) :
    check_existing_plugin u e.checkQuery w.sess = ⟨false, none, some m⟩ ∧
    (installPluginM cfg u e w).1.success = true ∧
    (installPluginM cfg u e w).2.fs =
      w.fs ++ (copiedRelPaths cfg.sourceFiles).map (fun p => cfg.sharedPath ++ p) ∧
    (installPluginM cfg u e w).2.sess.committed.plugins.countP (pluginMatches u) =
      w.sess.current.plugins.countP (pluginMatches u) + 1 ∧
    1 ≤ w.sess.current.plugins.countP (pluginMatches u) := by
  have hcheck : check_existing_plugin u e.checkQuery w.sess = ⟨false, none, some m⟩ := by
    simp [check_existing_plugin, hq]
  have hmrow : pluginMatches u (mkPluginRow u e.now) = true := by
    simp [pluginMatches, mkPluginRow]
  refine ⟨hcheck, ?_, ?_, ?_, ?_⟩
  · simp [installPluginM, hcheck, hmk, hcp, copy_plugin_files_impl, install_for_user,
          hact, perform_user_installation, create_database_records, hip, him, hcc]
  · simp [installPluginM, hcheck, hmk, hcp, copy_plugin_files_impl, install_for_user,
          hact, perform_user_installation, create_database_records, hip, him, hcc,
          Session.commit]
  · simp [installPluginM, hcheck, hmk, hcp, copy_plugin_files_impl, install_for_user,
          hact, perform_user_installation, create_database_records, hip, him, hcc,
          Session.commit, List.countP_append, hmrow]
  · exact List.countP_pos_iff.mpr hex

/-- Witness for C9: a fresh manager (empty `active_users`, the standalone
entry point's situation) over a database that already holds `alice`'s row,
with a raising check query: install succeeds and duplicates the row. -/
theorem c9_witness :
    check_existing_plugin "alice"
        (Env.checkQuery ⟨"t1", some "boom", none, none, none, none, none, none, none, none⟩)
        wInstalledEx.sess = ⟨false, none, some "boom"⟩ ∧
    (installPluginM cfgEx "alice"
        ⟨"t1", some "boom", none, none, none, none, none, none, none, none⟩
        ⟨wInstalledEx.sess, wInstalledEx.fs, []⟩).1.success = true ∧
    (installPluginM cfgEx "alice"
        ⟨"t1", some "boom", none, none, none, none, none, none, none, none⟩
        ⟨wInstalledEx.sess, wInstalledEx.fs, []⟩).2.fs =
      wInstalledEx.fs ++ (copiedRelPaths cfgEx.sourceFiles).map
        (fun p => cfgEx.sharedPath ++ p) ∧
    (installPluginM cfgEx "alice"
        ⟨"t1", some "boom", none, none, none, none, none, none, none, none⟩
        ⟨wInstalledEx.sess, wInstalledEx.fs, []⟩).2.sess.committed.plugins.countP
        (pluginMatches "alice") =
      wInstalledEx.sess.current.plugins.countP (pluginMatches "alice") + 1 ∧
    1 ≤ wInstalledEx.sess.current.plugins.countP (pluginMatches "alice") :=
  c9_check_fault_bypasses_guard cfgEx "alice" "boom"
    ⟨"t1", some "boom", none, none, none, none, none, none, none, none⟩
    ⟨wInstalledEx.sess, wInstalledEx.fs, []⟩
    rfl rfl rfl rfl rfl rfl (by decide) (by decide)

/-- **C10.** When `plugins_base_dir` is omitted or `None`, the constructor
sets the shared storage path to the plugin's own source directory
(`Path(__file__).parent`), so the standalone `install_plugin` copies the
plugin files into the very directory they are read from: each copied file
lands at `fileDir ++ p`, the absolute location of the source file `p`. -/
theorem c10_none_base_copies_to_source (fileDir : PathParts) (src : List PathParts)
    (u : String) (e : Env) (s : Session) (fs : List PathParts)
    (hs : (standalone_install_plugin fileDir src none u e s fs).1.success = true) :
    (mkCfg fileDir src none).sharedPath = fileDir ∧
    (standalone_install_plugin fileDir src none u e s fs).2.fs =
      fs ++ (copiedRelPaths src).map (fun p => fileDir ++ p) := by
  have hp : (mkCfg fileDir src none).sharedPath = fileDir := by
    simp [mkCfg, mkSharedPath, pluginsBaseDirTruthy]
  refine ⟨hp, ?_⟩
  have h2 := (install_success_state (mkCfg fileDir src none) u e
    ⟨s, fs, []⟩ hs).1
  unfold standalone_install_plugin
  rw [h2, hp]
  simp [mkCfg]

/-- Witness for C10: a successful standalone install with `None` base
writes the files back under the source directory `["plugindir"]`. -/
theorem c10_witness :
    (mkCfg ["plugindir"] srcEx none).sharedPath = ["plugindir"] ∧
    (standalone_install_plugin ["plugindir"] srcEx none "alice" noFault
        ⟨⟨[], []⟩, ⟨[], []⟩, 0⟩ []).2.fs =
      [] ++ (copiedRelPaths srcEx).map (fun p => ["plugindir"] ++ p) :=
  c10_none_base_copies_to_source ["plugindir"] srcEx "alice" noFault
    ⟨⟨[], []⟩, ⟨[], []⟩, 0⟩ [] (by decide)

/-- **C4.** From a state with an open-transaction-free session and no
pre-existing plugin or module rows for the user: after a successful
`install_plugin`, exactly one plugin row — `mkPluginRow u e1.now`, whose
`id` is `u ++ "_CollectionViewer"` — and exactly one module row exist for
that user and plugin; after a subsequent successful `delete_plugin`, zero
of each remain. -/
theorem c4_exact_rows (cfg : Cfg) (u : String) (e1 e2 : Env) (w : World)
    (hcc : w.sess.current = w.sess.committed)
    (hp0 : w.sess.committed.plugins.countP (pluginMatches u) = 0)
    (hm0 : w.sess.committed.modules.countP (moduleMatches u) = 0)
    (hs1 : (installPluginM cfg u e1 w).1.success = true)
    (hs2 : (deletePluginM u e2 (installPluginM cfg u e1 w).2).1.success = true) :
    ((installPluginM cfg u e1 w).2.sess.committed.plugins.filter (pluginMatches u) =
      [mkPluginRow u e1.now]) ∧
    ((installPluginM cfg u e1 w).2.sess.committed.modules.filter (moduleMatches u) =
      module_data.map (mkModuleRow u e1.now)) ∧
    (module_data.map (mkModuleRow u e1.now)).length = 1 ∧
    ((deletePluginM u e2 (installPluginM cfg u e1 w).2).2.sess.committed.plugins.filter
      (pluginMatches u) = []) ∧
    ((deletePluginM u e2 (installPluginM cfg u e1 w).2).2.sess.committed.modules.filter
      (moduleMatches u) = []) := by
  have hpre : ∀ x ∈ w.sess.current.plugins, pluginMatches u x = false := by
    intro x hx
    have hx2 : x ∈ w.sess.committed.plugins := by rw [← hcc]; exact hx
    have := List.countP_eq_zero.mp hp0 x hx2
    simpa using this
  have hmpre : ∀ x ∈ w.sess.current.modules, moduleMatches u x = false := by
    intro x hx
    have hx2 : x ∈ w.sess.committed.modules := by rw [← hcc]; exact hx
    have := List.countP_eq_zero.mp hm0 x hx2
    simpa using this
  have hmrow : pluginMatches u (mkPluginRow u e1.now) = true := by
    simp [pluginMatches, mkPluginRow]
  have hmmod : ∀ md ∈ module_data, moduleMatches u (mkModuleRow u e1.now md) = true := by
    intro md _
    simp [moduleMatches, mkModuleRow]
  have h1 := (install_success_state cfg u e1 w hs1).1
  have hfilpre : w.sess.current.plugins.filter (pluginMatches u) = [] :=
    List.filter_eq_nil_iff.mpr (by intro a ha; simp [hpre a ha])
  have hfilmpre : w.sess.current.modules.filter (moduleMatches u) = [] :=
    List.filter_eq_nil_iff.mpr (by intro a ha; simp [hmpre a ha])
  have hplug1 : (installPluginM cfg u e1 w).2.sess.committed.plugins =
      w.sess.current.plugins ++ [mkPluginRow u e1.now] := by rw [h1]
  have hmod1 : (installPluginM cfg u e1 w).2.sess.committed.modules =
      w.sess.current.modules ++ module_data.map (mkModuleRow u e1.now) := by rw [h1]
  have hcur1 : (installPluginM cfg u e1 w).2.sess.current =
      (installPluginM cfg u e1 w).2.sess.committed := by rw [h1]
  refine ⟨?_, ?_, rfl, ?_, ?_⟩
  · rw [hplug1, List.filter_append, hfilpre]
    simp [hmrow]
  · rw [hmod1, List.filter_append, hfilmpre]
    simp only [List.nil_append]
    exact List.filter_eq_self.mpr (by
      intro a ha
      rcases List.mem_map.mp ha with ⟨md, hmd, rfl⟩
      exact hmmod md hmd)
  · obtain ⟨r, hfind, _, _, _, _, _, h2⟩ := delete_success_state u e2 _ hs2
    have hr : r = mkPluginRow u e1.now := by
      rw [hcur1, hplug1, List.find?_append] at hfind
      rw [List.find?_eq_none.mpr (by intro x hx; simp [hpre x hx])] at hfind
      simpa [hmrow] using hfind.symm
    rw [h2]
    simp only [hcur1, hplug1]
    rw [List.filter_filter]
    refine List.filter_eq_nil_iff.mpr ?_
    intro a ha
    rcases List.mem_append.mp ha with hmem | hmem
    · simp [hpre a hmem]
    · simp only [List.mem_singleton] at hmem
      subst hmem
      subst hr
      simp [pluginDeleteMatches, pluginMatches, mkPluginRow]
  · obtain ⟨r, hfind, _, _, _, _, _, h2⟩ := delete_success_state u e2 _ hs2
    have hr : r = mkPluginRow u e1.now := by
      rw [hcur1, hplug1, List.find?_append] at hfind
      rw [List.find?_eq_none.mpr (by intro x hx; simp [hpre x hx])] at hfind
      simpa [hmrow] using hfind.symm
    rw [h2]
    simp only [hcur1, hmod1]
    rw [List.filter_filter]
    refine List.filter_eq_nil_iff.mpr ?_
    intro a ha
    rcases List.mem_append.mp ha with hmem | hmem
    · simp [hmpre a hmem]
    · rcases List.mem_map.mp hmem with ⟨md, hmd, rfl⟩
      subst hr
      simp [moduleDeleteMatches, moduleMatches, mkModuleRow, mkPluginRow]

/-- Witness for C4: a concrete install-then-uninstall of `alice` from
the empty state. -/
theorem c4_witness :
    ((installPluginM cfgEx "alice" noFault initWorld).2.sess.committed.plugins.filter
      (pluginMatches "alice") = [mkPluginRow "alice" noFault.now]) ∧
    ((installPluginM cfgEx "alice" noFault initWorld).2.sess.committed.modules.filter
      (moduleMatches "alice") = module_data.map (mkModuleRow "alice" noFault.now)) ∧
    (module_data.map (mkModuleRow "alice" noFault.now)).length = 1 ∧
    ((deletePluginM "alice" noFault
        (installPluginM cfgEx "alice" noFault initWorld).2).2.sess.committed.plugins.filter
      (pluginMatches "alice") = []) ∧
    ((deletePluginM "alice" noFault
        (installPluginM cfgEx "alice" noFault initWorld).2).2.sess.committed.modules.filter
      (moduleMatches "alice") = []) :=
  c4_exact_rows cfgEx "alice" noFault noFault initWorld rfl rfl rfl
    (by decide) (by decide)

lemma allFilesCopied_append (cfg : Cfg) (fs l : List PathParts)
    (h : allFilesCopied cfg fs) : allFilesCopied cfg (fs ++ l) := by
  intro p hp hsc
  exact List.mem_append.mpr (Or.inl (h p hp hsc))

lemma allFilesCopied_after_copy (cfg : Cfg) (fs : List PathParts) :
    allFilesCopied cfg
      (fs ++ (copiedRelPaths cfg.sourceFiles).map (fun p => cfg.sharedPath ++ p)) := by
  intro p hp hsc
  exact List.mem_append.mpr (Or.inr (List.mem_map.mpr
    ⟨p, mem_copiedRelPaths.mpr ⟨hp, hsc⟩, rfl⟩))

lemma dbinv_insert (u now : String) (d : DBState) (h : DBInv d) :
    DBInv ⟨d.plugins ++ [mkPluginRow u now],
           d.modules ++ module_data.map (mkModuleRow u now)⟩ := by
  obtain ⟨hcp, hcm, hul⟩ := h
  refine ⟨?_, ?_, ?_⟩
  · intro r hr
    rcases List.mem_append.mp hr with hr | hr
    · exact hcp r hr
    · simp only [List.mem_singleton] at hr
      subst hr
      exact ⟨rfl, rfl⟩
  · intro x hx
    rcases List.mem_append.mp hx with hx | hx
    · exact hcm x hx
    · rcases List.mem_map.mp hx with ⟨md, hmd, rfl⟩
      rfl
  · intro v
    constructor
    · rintro ⟨r, hr, hru, hrs⟩
      rcases List.mem_append.mp hr with hr | hr
      · obtain ⟨x, hx, hxu⟩ := (hul v).mp ⟨r, hr, hru, hrs⟩
        exact ⟨x, List.mem_append.mpr (Or.inl hx), hxu⟩
      · simp only [List.mem_singleton] at hr
        subst hr
        obtain ⟨md, hmd⟩ : ∃ md, md ∈ module_data := ⟨_, List.mem_cons_self _ _⟩
        exact ⟨mkModuleRow u now md,
          List.mem_append.mpr (Or.inr (List.mem_map_of_mem _ hmd)), hru⟩
    · rintro ⟨x, hx, hxu⟩
      rcases List.mem_append.mp hx with hx | hx
      · obtain ⟨r, hr, hrp⟩ := (hul v).mpr ⟨x, hx, hxu⟩
        exact ⟨r, List.mem_append.mpr (Or.inl hr), hrp⟩
      · rcases List.mem_map.mp hx with ⟨md, hmd, rfl⟩
        exact ⟨mkPluginRow u now,
          List.mem_append.mpr (Or.inr (List.mem_singleton.mpr rfl)), hxu, rfl⟩

lemma dbinv_delete (u : String) (d : DBState) (h : DBInv d) :
    DBInv ⟨d.plugins.filter
             (fun x => !(pluginDeleteMatches (u ++ "_" ++ plugin_data.plugin_slug) u x)),
           d.modules.filter
             (fun x => !(moduleDeleteMatches (u ++ "_" ++ plugin_data.plugin_slug) u x))⟩ := by
  obtain ⟨hcp, hcm, hul⟩ := h
  refine ⟨?_, ?_, ?_⟩
  · intro r hr
    exact hcp r (List.mem_filter.mp hr).1
  · intro x hx
    exact hcm x (List.mem_filter.mp hx).1
  · intro v
    by_cases hv : v = u
    · subst hv
      constructor
      · rintro ⟨r, hr, hru, hrs⟩
        obtain ⟨hrmem, hpred⟩ := List.mem_filter.mp hr
        exfalso
        have hid := (hcp r hrmem).1
        rw [hru] at hid
        simp [pluginDeleteMatches, hid, hru] at hpred
      · rintro ⟨x, hx, hxu⟩
        obtain ⟨hxmem, hpred⟩ := List.mem_filter.mp hx
        exfalso
        have hid := hcm x hxmem
        rw [hxu] at hid
        simp [moduleDeleteMatches, hid, hxu] at hpred
    · constructor
      · rintro ⟨r, hr, hru, hrs⟩
        obtain ⟨x, hx, hxu⟩ := (hul v).mp ⟨r, (List.mem_filter.mp hr).1, hru, hrs⟩
        refine ⟨x, List.mem_filter.mpr ⟨hx, ?_⟩, hxu⟩
        have hne : (x.userId == u) = false :=
          beq_eq_false_iff_ne.mpr (by rw [hxu]; exact hv)
        simp [moduleDeleteMatches, hne]
      · rintro ⟨x, hx, hxu⟩
        obtain ⟨r, hr, hru, hrs⟩ := (hul v).mpr ⟨x, (List.mem_filter.mp hx).1, hxu⟩
        refine ⟨r, List.mem_filter.mpr ⟨hr, ?_⟩, hru, hrs⟩
        have hne : (r.userId == u) = false :=
          beq_eq_false_iff_ne.mpr (by rw [hru]; exact hv)
        simp [pluginDeleteMatches, hne]

lemma stronginv_install (cfg : Cfg) (u : String) (e : Env) (w : World)
    (h : StrongInv cfg w) : StrongInv cfg (installPluginM cfg u e w).2 := by
  obtain ⟨hcur, hdb, hfs⟩ := h
  by_cases hck : (check_existing_plugin u e.checkQuery w.sess).pluginExists
  · have heq : (installPluginM cfg u e w).2 = w := by simp [installPluginM, hck]
    rw [heq]; exact ⟨hcur, hdb, hfs⟩
  · rcases hmk : e.mkdirFault with _ | m
    · rcases hcp : e.copyFault with _ | m
      · have hfs2 : allFilesCopied cfg
            (w.fs ++ (copiedRelPaths cfg.sourceFiles).map (fun p => cfg.sharedPath ++ p)) :=
          allFilesCopied_after_copy cfg w.fs
        by_cases hact : u ∈ w.activeUsers
        · have heq : (installPluginM cfg u e w).2 =
              ⟨w.sess,
               w.fs ++ (copiedRelPaths cfg.sourceFiles).map (fun p => cfg.sharedPath ++ p),
               w.activeUsers⟩ := by
            simp [installPluginM, hck, hmk, hcp, copy_plugin_files_impl,
                  install_for_user, hact]
          rw [heq]
          exact ⟨hcur, hdb, fun _ => hfs2⟩
        · rcases hip : e.insertPlugin with _ | m
          · rcases him : e.insertModule with _ | m
            · rcases hcm : e.commitCreate with _ | m
              · have heq : (installPluginM cfg u e w).2 =
                    ⟨⟨⟨w.sess.current.plugins ++ [mkPluginRow u e.now],
                        w.sess.current.modules ++ module_data.map (mkModuleRow u e.now)⟩,
                      ⟨w.sess.current.plugins ++ [mkPluginRow u e.now],
                        w.sess.current.modules ++ module_data.map (mkModuleRow u e.now)⟩,
                      w.sess.rollbackCount⟩,
                     w.fs ++ (copiedRelPaths cfg.sourceFiles).map (fun p => cfg.sharedPath ++ p),
                     u :: w.activeUsers⟩ := by
                  simp [installPluginM, hck, hmk, hcp, copy_plugin_files_impl,
                        install_for_user, hact, perform_user_installation,
                        create_database_records, hip, him, hcm, Session.commit]
                rw [heq]
                refine ⟨rfl, ?_, fun _ => hfs2⟩
                rw [hcur]
                exact dbinv_insert u e.now w.sess.committed hdb
              · have heq : (installPluginM cfg u e w).2 =
                    ⟨⟨w.sess.committed, w.sess.committed, w.sess.rollbackCount + 1⟩,
                     w.fs ++ (copiedRelPaths cfg.sourceFiles).map (fun p => cfg.sharedPath ++ p),
                     w.activeUsers⟩ := by
                  simp [installPluginM, hck, hmk, hcp, copy_plugin_files_impl,
                        install_for_user, hact, perform_user_installation,
                        create_database_records, hip, him, hcm, Session.rollback]
                rw [heq]
                exact ⟨rfl, hdb, fun _ => hfs2⟩
            · have heq : (installPluginM cfg u e w).2 =
                  ⟨⟨w.sess.committed, w.sess.committed, w.sess.rollbackCount + 1⟩,
                   w.fs ++ (copiedRelPaths cfg.sourceFiles).map (fun p => cfg.sharedPath ++ p),
                   w.activeUsers⟩ := by
                simp [installPluginM, hck, hmk, hcp, copy_plugin_files_impl,
                      install_for_user, hact, perform_user_installation,
                      create_database_records, hip, him, Session.rollback]
              rw [heq]
              exact ⟨rfl, hdb, fun _ => hfs2⟩
          · have heq : (installPluginM cfg u e w).2 =
                ⟨⟨w.sess.committed, w.sess.committed, w.sess.rollbackCount + 1⟩,
                 w.fs ++ (copiedRelPaths cfg.sourceFiles).map (fun p => cfg.sharedPath ++ p),
                 w.activeUsers⟩ := by
              simp [installPluginM, hck, hmk, hcp, copy_plugin_files_impl,
                    install_for_user, hact, perform_user_installation,
                    create_database_records, hip, Session.rollback]
            rw [heq]
            exact ⟨rfl, hdb, fun _ => hfs2⟩
      · have heq : (installPluginM cfg u e w).2 = w := by
          simp [installPluginM, hck, hmk, hcp, copy_plugin_files_impl]
        rw [heq]; exact ⟨hcur, hdb, hfs⟩
    · have heq : (installPluginM cfg u e w).2 = w := by
        simp [installPluginM, hck, hmk]
      rw [heq]; exact ⟨hcur, hdb, hfs⟩

lemma stronginv_uninstall (cfg : Cfg) (u : String) (e : Env) (w : World)
    (h : StrongInv cfg w) : StrongInv cfg (deletePluginM u e w).2 := by
  obtain ⟨hcur, hdb, hfs⟩ := h
  by_cases hact : u ∈ w.activeUsers
  · rcases hq : e.checkQuery with _ | m
    · rcases hfind : w.sess.current.plugins.find? (pluginMatches u) with _ | r
      · have heq : (deletePluginM u e w).2 = w := by
          simp [deletePluginM, uninstall_for_user, hact, perform_user_uninstallation,
                check_existing_plugin, hq, hfind]
        rw [heq]; exact ⟨hcur, hdb, hfs⟩
      · have hrmem : r ∈ w.sess.current.plugins := List.mem_of_find?_eq_some hfind
        have hrmatch := List.find?_some hfind
        have hru : r.userId = u := by
          simp [pluginMatches] at hrmatch
          exact hrmatch.1
        have hrid : r.id = u ++ "_" ++ plugin_data.plugin_slug := by
          have h2 := (hdb.1 r (by rw [← hcur]; exact hrmem)).1
          rw [h2, hru]
        rcases hdm : e.deleteModules with _ | m
        · rcases hdp : e.deletePlugin with _ | m
          · by_cases hrc : (w.sess.current.plugins.countP (pluginDeleteMatches r.id u)) == 0
            · have heq : (deletePluginM u e w).2 =
                  ⟨⟨w.sess.committed, w.sess.committed, w.sess.rollbackCount + 1⟩,
                   w.fs, w.activeUsers⟩ := by
                simp [deletePluginM, uninstall_for_user, hact, perform_user_uninstallation,
                      check_existing_plugin, hq, hfind, delete_database_records,
                      hdm, hdp, hrc, Session.rollback]
              rw [heq]; exact ⟨rfl, hdb, hfs⟩
            · rcases hcd : e.commitDelete with _ | m
              · have heq : (deletePluginM u e w).2 =
                    ⟨⟨⟨w.sess.current.plugins.filter
                          (fun x => !(pluginDeleteMatches r.id u x)),
                        w.sess.current.modules.filter
                          (fun x => !(moduleDeleteMatches r.id u x))⟩,
                      ⟨w.sess.current.plugins.filter
                          (fun x => !(pluginDeleteMatches r.id u x)),
                        w.sess.current.modules.filter
                          (fun x => !(moduleDeleteMatches r.id u x))⟩,
                      w.sess.rollbackCount⟩,
                     w.fs, w.activeUsers.filter (fun v => !(v == u))⟩ := by
                  simp [deletePluginM, uninstall_for_user, hact, perform_user_uninstallation,
                        check_existing_plugin, hq, hfind, delete_database_records,
                        hdm, hdp, hrc, hcd, Session.commit]
                rw [heq]
                refine ⟨rfl, ?_, ?_⟩
                · rw [hcur, hrid]
                  exact dbinv_delete u w.sess.committed hdb
                · intro hne
                  apply hfs
                  intro hemp
                  rw [hcur, hemp] at hne
                  simp at hne
              · have heq : (deletePluginM u e w).2 =
                    ⟨⟨w.sess.committed, w.sess.committed, w.sess.rollbackCount + 1⟩,
                     w.fs, w.activeUsers⟩ := by
                  simp [deletePluginM, uninstall_for_user, hact, perform_user_uninstallation,
                        check_existing_plugin, hq, hfind, delete_database_records,
                        hdm, hdp, hrc, hcd, Session.rollback]
                rw [heq]; exact ⟨rfl, hdb, hfs⟩
          · have heq : (deletePluginM u e w).2 =
                ⟨⟨w.sess.committed, w.sess.committed, w.sess.rollbackCount + 1⟩,
                 w.fs, w.activeUsers⟩ := by
              simp [deletePluginM, uninstall_for_user, hact, perform_user_uninstallation,
                    check_existing_plugin, hq, hfind, delete_database_records,
                    hdm, hdp, Session.rollback]
            rw [heq]; exact ⟨rfl, hdb, hfs⟩
        · have heq : (deletePluginM u e w).2 =
              ⟨⟨w.sess.committed, w.sess.committed, w.sess.rollbackCount + 1⟩,
               w.fs, w.activeUsers⟩ := by
            simp [deletePluginM, uninstall_for_user, hact, perform_user_uninstallation,
                  check_existing_plugin, hq, hfind, delete_database_records,
                  hdm, Session.rollback]
          rw [heq]; exact ⟨rfl, hdb, hfs⟩
    · have heq : (deletePluginM u e w).2 = w := by
        simp [deletePluginM, uninstall_for_user, hact, perform_user_uninstallation,
              check_existing_plugin, hq]
      rw [heq]; exact ⟨hcur, hdb, hfs⟩
  · have heq : (deletePluginM u e w).2 = w := by
      simp [deletePluginM, uninstall_for_user, hact]
    rw [heq]; exact ⟨hcur, hdb, hfs⟩

lemma stronginv_init (cfg : Cfg) : StrongInv cfg initWorld := by
  refine ⟨rfl, ⟨?_, ?_, ?_⟩, ?_⟩
  · intro r hr; simp [initWorld] at hr
  · intro x hx; simp [initWorld] at hx
  · intro v; simp [initWorld]
  · intro hne; simp [initWorld] at hne

lemma stronginv_runOps (cfg : Cfg) (w : World) (ops : List Op)
    (h : StrongInv cfg w) : StrongInv cfg (runOps cfg w ops) := by
  induction ops generalizing w with
  | nil => exact h
  | cons op ops ih =>
    cases op with
    | install u e => exact ih _ (stronginv_install cfg u e w h)
    | uninstall u e => exact ih _ (stronginv_uninstall cfg u e w h)

/-- **C3.** In every state reachable by any sequence of `install_plugin`
and `delete_plugin` calls (including failing ones) from the initial state,
a plugin row for a given `(user_id, plugin_slug)` pair exists if and only
if the plugin's files have been copied to the manager's shared storage
path and at least one module row references that plugin row's id (every
reachable plugin row's id is the canonical `user_id + "_CollectionViewer"`,
so the reference is stated against that id). -/
theorem c3_lifecycle_invariant (cfg : Cfg) (w : World) (hreach : Reachable cfg w)
    (u : String) :
    pluginRowExistsFor w.sess.committed u ↔
      (allFilesCopied cfg w.fs ∧
        ∃ x ∈ w.sess.committed.modules,
          x.pluginId = u ++ "_" ++ plugin_data.plugin_slug) := by
  obtain ⟨ops, rfl⟩ := hreach
  obtain ⟨hcur, ⟨hcp, hcm, hul⟩, hfs⟩ :=
    stronginv_runOps cfg initWorld ops (stronginv_init cfg)
  constructor
  · rintro ⟨r, hr, hru, hrs⟩
    have hne := List.ne_nil_of_mem hr
    refine ⟨hfs hne, ?_⟩
    obtain ⟨x, hx, hxu⟩ := (hul u).mp ⟨r, hr, hru, hrs⟩
    exact ⟨x, hx, by rw [hcm x hx, hxu]⟩
  · rintro ⟨hfc, x, hx, hxp⟩
    have hxu : x.userId = u := by
      have h1 := hcm x hx
      rw [h1] at hxp
      exact string_append_cancel_right (string_append_cancel_right hxp)
    exact (hul u).mpr ⟨x, hx, hxu⟩

/-- Witness for C3: the invariant instantiated at the reachable state
after one successful install, where both sides of the equivalence hold. -/
theorem c3_witness :
    Reachable cfgEx (runOps cfgEx initWorld [.install "alice" noFault]) ∧
    (pluginRowExistsFor
        (runOps cfgEx initWorld [.install "alice" noFault]).sess.committed "alice" ↔
      (allFilesCopied cfgEx (runOps cfgEx initWorld [.install "alice" noFault]).fs ∧
        ∃ x ∈ (runOps cfgEx initWorld [.install "alice" noFault]).sess.committed.modules,
          x.pluginId = "alice" ++ "_" ++ plugin_data.plugin_slug)) :=
  ⟨⟨[.install "alice" noFault], rfl⟩,
   c3_lifecycle_invariant cfgEx _ ⟨[.install "alice" noFault], rfl⟩ "alice"⟩

end CollectionViewer
